import Mathlib

/-!
Shallow embedding of the usage-accounting and entitlement core of the
Notae backend (Firebase cloud functions in `src/functions/index.js`, with
the device-binding variant of the vision handler from
`src/unnamed/part_002`).

The Firestore user document is modelled as `UserData`, with every field
optional (a Firestore document may lack any field).  JavaScript's
falsy-default idiom `x || d` on numeric fields is modelled by `orD`
(absent or `0` falls back to the default).  The opaque upstream provider
call is modelled by a `ProviderOutcome` parameter and the best-effort
usage-log write by an `Option String` failure parameter, following the
spec's direction to treat both as opaque capabilities.  Timestamps used
only for diagnostics (`createdAt`, `lastRequestAt`,
`subscriptionVerifiedAt`) are not modelled.
-/

namespace Notae

/-- Subscription tier as recognised by the code's string comparisons
`=== 'pro'` / `=== 'free'` (index.js).  A record may lack the field
entirely, which the embedding represents as `none`. -/
inductive Tier where
  | free
  | pro
  deriving DecidableEq, Repr

/-- JavaScript `x || d` on an optional numeric field: an absent field or a
stored `0` falls back to the default `d`. -/
def orD : Option Nat → Nat → Nat
  | some n, d => if n = 0 then d else n
  | none, d => d

/-- The per-user Firestore document (`users/{uid}`), as read and written by
`src/functions/index.js` and the `src/unnamed` variants. -/
structure UserData where
  deviceID : Option String := none
  photoScansUsed : Option Nat := none
  photoScansLimit : Option Nat := none
  photoScansDayKey : Option String := none
  voiceActionsUsed : Option Nat := none
  voiceActionsLimit : Option Nat := none
  voiceActionsDayKey : Option String := none
  subscriptionTier : Option Tier := none
  subscriptionExpiresAt : Option Int := none
  subscriptionProductId : Option String := none
  lifetimeAPIRequests : Option Nat := none
  monthlyTokens : Option Nat := none
  deriving DecidableEq, Repr

/-- Constant `FREE_VOICE_LIMIT = 7` (index.js line 21). -/
def FREE_VOICE_LIMIT : Nat := 7

/-- Constant `FREE_PHOTO_LIMIT = 3` (index.js line 22). -/
def FREE_PHOTO_LIMIT : Nat := 3

/-- Helper `ensureMonthlyVoiceReset` (index.js lines 26-46).  `monthKey` is the
current UTC month stamp `getMonthKey()`.  Returns the resulting document
together with whether the code issued a `userRef.update` write. -/
def ensureMonthlyVoiceReset (monthKey : String) (u : UserData) : UserData × Bool :=
  let tier := u.subscriptionTier.getD Tier.free
  let needsLimitFix := tier ≠ Tier.pro ∧ orD u.voiceActionsLimit FREE_VOICE_LIMIT ≠ FREE_VOICE_LIMIT
  let needsReset := tier ≠ Tier.pro ∧ u.voiceActionsDayKey ≠ some monthKey
  if needsReset ∨ needsLimitFix then
    ({ u with
        voiceActionsUsed := some (if needsReset then 0 else u.voiceActionsUsed.getD 0),
        voiceActionsDayKey := some monthKey,
        voiceActionsLimit :=
          if needsLimitFix then some FREE_VOICE_LIMIT else u.voiceActionsLimit },
      true)
  else
    (u, false)

/-- Helper `ensureMonthlyPhotoReset` (index.js lines 48-68).  Same shape as the
voice helper, over the photo-scan counter. -/
def ensureMonthlyPhotoReset (monthKey : String) (u : UserData) : UserData × Bool :=
  let tier := u.subscriptionTier.getD Tier.free
  let needsLimitFix := tier ≠ Tier.pro ∧ orD u.photoScansLimit FREE_PHOTO_LIMIT ≠ FREE_PHOTO_LIMIT
  let needsReset := tier ≠ Tier.pro ∧ u.photoScansDayKey ≠ some monthKey
  if needsReset ∨ needsLimitFix then
    ({ u with
        photoScansUsed := some (if needsReset then 0 else u.photoScansUsed.getD 0),
        photoScansDayKey := some monthKey,
        photoScansLimit :=
          if needsLimitFix then some FREE_PHOTO_LIMIT else u.photoScansLimit },
      true)
  else
    (u, false)

/-- Rejection and failure taxonomy surfaced by the handlers: the
`resource-exhausted` `HttpsError` carrying `{limit, used, tier}` data
(index.js lines 168-176), and the `internal` wrapper for provider or
log-write failures. -/
inductive Err where
  | quotaExhausted (limit used : Nat) (tier : Tier)
  | internal (msg : String)
  deriving DecidableEq, Repr

/-- Outcome of the opaque upstream provider capability (the Claude vision
fetch loop, index.js lines 191-264): a successful structured response with
token usage, or a failure surfaced as a thrown error. -/
inductive ProviderOutcome where
  | ok (text : String) (inputTokens outputTokens : Nat)
  | fail (msg : String)
  deriving DecidableEq, Repr

/-- Successful response payload of the vision handler
(index.js lines 317-322; `usage` and `photoType` echo fields omitted). -/
structure VisionOk where
  markdown : String
  remainingScans : Nat
  deriving DecidableEq, Repr

/-- Effective photo-scan limit as the vision handler computes it
(index.js line 155): `pro ? 999999 : (photoScansLimit || 3)`. -/
def visionEffLimit (u : UserData) : Nat :=
  if u.subscriptionTier = some Tier.pro then 999999 else orD u.photoScansLimit 3

/-- Effective photo-scan counter as the vision handler reads it
(index.js line 156): `photoScansUsed || 0`. -/
def visionEffUsed (u : UserData) : Nat :=
  orD u.photoScansUsed 0

/-- The vision usage gate of index.js lines 153-177: normalize the counter
for the current month, then reject with `resource-exhausted` when
`used >= limit` and the stored tier is exactly `free`; otherwise proceed
with the normalized record. -/
def visionTryConsume (monthKey : String) (u : UserData) : Except Err UserData :=
  let u1 := (ensureMonthlyPhotoReset monthKey u).1
  let limit := visionEffLimit u1
  let used := visionEffUsed u1
  if used ≥ limit ∧ u1.subscriptionTier = some Tier.free then
    Except.error (Err.quotaExhausted limit used Tier.free)
  else
    Except.ok u1

/-- The post-success usage update of index.js lines 289-296: atomic
Firestore increments of `photoScansUsed`, `lifetimeAPIRequests` and
`monthlyTokens` (an increment on an absent field starts from 0). -/
def chargeVisionUsage (tokens : Nat) (u : UserData) : UserData :=
  { u with
      photoScansUsed := some (u.photoScansUsed.getD 0 + 1),
      lifetimeAPIRequests := some (u.lifetimeAPIRequests.getD 0 + 1),
      monthlyTokens := some (u.monthlyTokens.getD 0 + tokens) }

/-- The `callClaudeVision` handler of `src/functions/index.js`
(lines 118-335), from the rate-limiting block onward: normalize and gate,
call the provider, on provider success apply the usage increments, then
attempt the usage-log write; a failing log write (`logFail = some msg`)
throws and is wrapped as an `internal` error by the catch block
(lines 324-335), after the increments have already been applied.  Returns
the caller-visible outcome together with the final stored record. -/
def callClaudeVision (monthKey : String) (provider : ProviderOutcome)
    (logFail : Option String) (u : UserData) : Except Err VisionOk × UserData :=
  match visionTryConsume monthKey u with
  | Except.error e => (Except.error e, (ensureMonthlyPhotoReset monthKey u).1)
  | Except.ok u1 =>
    match provider with
    | ProviderOutcome.fail msg => (Except.error (Err.internal msg), u1)
    | ProviderOutcome.ok text itok otok =>
      let u2 := chargeVisionUsage (itok + otok) u1
      match logFail with
      | some msg => (Except.error (Err.internal msg), u2)
      | none =>
        (Except.ok
          { markdown := text,
            remainingScans := visionEffLimit u1 - (visionEffUsed u1 + 1) },
          u2)

/-- Effective photo-scan limit as the `part_002` vision handler computes
it (part_002 lines 351-354), over the defaulted tier. -/
def visionEffLimitV2 (u : UserData) : Nat :=
  if u.subscriptionTier.getD Tier.free = Tier.pro then 999999 else orD u.photoScansLimit 3

/-- The device-binding guard of the `src/unnamed/part_002` vision handler
(lines 365-372) and the `src/unnamed/part_004` chat proxy (lines 93-101):
when a truthy stored `deviceID` differs from the presented one, overwrite
it with the presented value and emit a non-fatal warning; never throws.
Returns the resulting record and whether the warning-plus-update fired. -/
def reconcileDevice (presented : String) (u : UserData) : UserData × Bool :=
  match u.deviceID with
  | some d =>
    if d ≠ "" ∧ d ≠ presented then ({ u with deviceID := some presented }, true)
    else (u, false)
  | none => (u, false)

/-- The `callClaudeVision` handler of `src/unnamed/part_002`
(lines 326-480), from the rate-limiting block onward: compute the
defaulted tier and the limit and counter, reconcile the device binding,
reject when `used >= limit` on a `free` tier, otherwise call the provider,
apply the usage increments on success, then attempt the usage-log write
(a failure of which is wrapped as an `internal` error).  This variant has
no monthly reset and defaults an absent tier to `free` before the
comparison. -/
def callClaudeVisionV2 (presented : String) (provider : ProviderOutcome)
    (logFail : Option String) (u : UserData) : Except Err VisionOk × UserData :=
  let tier := u.subscriptionTier.getD Tier.free
  let limit := visionEffLimitV2 u
  let used := orD u.photoScansUsed 0
  let u1 := (reconcileDevice presented u).1
  if used ≥ limit ∧ tier = Tier.free then
    (Except.error (Err.quotaExhausted limit used tier), u1)
  else
    match provider with
    | ProviderOutcome.fail msg => (Except.error (Err.internal msg), u1)
    | ProviderOutcome.ok text itok otok =>
      let u2 := chargeVisionUsage (itok + otok) u1
      match logFail with
      | some msg => (Except.error (Err.internal msg), u2)
      | none =>
        (Except.ok { markdown := text, remainingScans := limit - (used + 1) }, u2)

/-- The verified receipt claims payload extracted by `jwtVerify`
(index.js lines 728-732): the expiry timestamp (epoch milliseconds) and
the product identifier. -/
structure ReceiptClaims where
  expiresDate : Int
  productId : String
  deriving DecidableEq, Repr

/-- The response of `verifySubscription` (index.js lines 743-748). -/
structure VerifyResult where
  success : Bool
  isActive : Bool
  expiresAt : Int
  subscriptionTier : Tier
  deriving DecidableEq, Repr

/-- The post-verification reconciliation of `verifySubscription`
(index.js lines 732-748): `isActive := expiresDate > now`, the tier is
`pro` exactly when active, and the record's tier, expiry and product
fields are overwritten unconditionally (`subscriptionVerifiedAt`, a pure
diagnostic timestamp, is not modelled). -/
def verifySubscription (now : Int) (claims : ReceiptClaims) (u : UserData) :
    UserData × VerifyResult :=
  let isActive : Bool := decide (now < claims.expiresDate)
  let tier : Tier := if now < claims.expiresDate then Tier.pro else Tier.free
  ({ u with
      subscriptionTier := some tier,
      subscriptionExpiresAt := some claims.expiresDate,
      subscriptionProductId := some claims.productId },
    { success := true, isActive := isActive, expiresAt := claims.expiresDate,
      subscriptionTier := tier })

/-- Control state of one in-flight vision request in the concurrency
model: the snapshot of the user document it has read (index.js line 125),
and once finished, whether it got past the quota gate. -/
structure ReqCtl where
  snapshot : Option UserData := none
  finished : Bool := false
  success : Bool := false
  deriving DecidableEq, Repr

/-- One atomic ledger operation of an in-flight vision request against the
shared user document.  The handler performs exactly two such operations on
the quota counter: the document read (index.js line 125), and — only when
the quota check over that stale snapshot passes (line 166) — the atomic
increment (line 289).  The check itself is local computation over the
snapshot, not a ledger operation, which is exactly the race the spec
forbids.  A rejected request performs no write. -/
def reqStep (monthKey : String) (ledger : UserData) (r : ReqCtl) : UserData × ReqCtl :=
  if r.finished then (ledger, r)
  else
    match r.snapshot with
    | none => (ledger, { r with snapshot := some ledger })
    | some s =>
      match visionTryConsume monthKey s with
      | Except.error _ => (ledger, { r with finished := true, success := false })
      | Except.ok _ =>
        (chargeVisionUsage 0 ledger, { r with finished := true, success := true })

/-- Run a list of concurrent vision requests under an explicit
interleaving: each schedule entry names the request that performs its next
atomic ledger operation. -/
def runSched (monthKey : String) :
    List Nat → UserData → List ReqCtl → UserData × List ReqCtl
  | [], ledger, rs => (ledger, rs)
  | i :: rest, ledger, rs =>
    match rs[i]? with
    | none => runSched monthKey rest ledger rs
    | some r =>
      let p := reqStep monthKey ledger r
      runSched monthKey rest p.1 (rs.set i p.2)

/-- Whether a handler outcome is the quota rejection. -/
def isQuotaRejection {α : Type} : Except Err α → Bool
  | Except.error (Err.quotaExhausted _ _ _) => true
  | _ => false

/-- Whether a handler outcome is a success. -/
def isOkResult {α : Type} : Except Err α → Bool
  | Except.ok _ => true
  | _ => false

/-- A `pro` record with a stale period key and a non-default limit, used
to exhibit that the reset helpers leave `pro` records untouched. -/
def proStaleRecord : UserData :=
  { subscriptionTier := some Tier.pro, voiceActionsUsed := some 99,
    voiceActionsLimit := some 1, voiceActionsDayKey := some "1999-01",
    photoScansUsed := some 99, photoScansLimit := some 1,
    photoScansDayKey := some "1999-01" }

/-- A free record whose stored voice limit (5) predates the current
compile-time default (7), with the period key already current. -/
def migrationRecord : UserData :=
  { subscriptionTier := some Tier.free, voiceActionsUsed := some 2,
    voiceActionsLimit := some 5, voiceActionsDayKey := some "2025-06" }

/-- A `pro` record whose counter is far beyond its stored limit. -/
def proHeavyRecord : UserData :=
  { subscriptionTier := some Tier.pro, photoScansUsed := some 1000000,
    photoScansLimit := some 3 }

/-- A free record with one scan consumed and a current period key, used
for the provider-failure and log-failure scenarios. -/
def cexFailRecord : UserData :=
  { subscriptionTier := some Tier.free, photoScansUsed := some 1,
    photoScansLimit := some 3, photoScansDayKey := some "2025-06" }

/-- A free record at its limit with a current period key. -/
def exhaustedRecord : UserData :=
  { subscriptionTier := some Tier.free, photoScansUsed := some 3,
    photoScansLimit := some 3, photoScansDayKey := some "2025-06",
    lifetimeAPIRequests := some 10, monthlyTokens := some 500 }

/-- A free record at its limit carrying a stale (previous-month) period
key. -/
def staleFullRecord : UserData :=
  { subscriptionTier := some Tier.free, photoScansUsed := some 3,
    photoScansLimit := some 3, photoScansDayKey := some "2025-05" }

/-- A free record bound to one device identifier, with quota available. -/
def mismatchRecord : UserData :=
  { deviceID := some "device-a", subscriptionTier := some Tier.free,
    photoScansUsed := some 0, photoScansLimit := some 3 }

/-- A free record with one scan of remaining allowance in the current
period, the shared state of the concurrency scenario. -/
def raceRecord : UserData :=
  { subscriptionTier := some Tier.free, photoScansUsed := some 2,
    photoScansLimit := some 3, photoScansDayKey := some "2025-06" }

lemma orD_eq_getD_zero (o : Option Nat) : orD o 0 = o.getD 0 := by
  cases o with
  | none => rfl
  | some n => by_cases h : n = 0 <;> simp [orD, h]

lemma orD_pos (o : Option Nat) {d : Nat} (hd : 0 < d) : 0 < orD o d := by
  cases o with
  | none => simpa [orD] using hd
  | some n =>
    by_cases h : n = 0
    · simpa [orD, h] using hd
    · simpa [orD, h] using Nat.pos_of_ne_zero h

lemma getD_free_eq_pro_iff (o : Option Tier) :
    o.getD Tier.free = Tier.pro ↔ o = some Tier.pro := by
  cases o <;> simp

lemma ensureMonthlyVoiceReset_pro (monthKey : String) (u : UserData)
    (h : u.subscriptionTier = some Tier.pro) :
    ensureMonthlyVoiceReset monthKey u = (u, false) := by
  simp [ensureMonthlyVoiceReset, h]

lemma ensureMonthlyPhotoReset_pro (monthKey : String) (u : UserData)
    (h : u.subscriptionTier = some Tier.pro) :
    ensureMonthlyPhotoReset monthKey u = (u, false) := by
  simp [ensureMonthlyPhotoReset, h]

/-- C10: the monthly reset helpers never touch a `pro` record — no write
is issued and every stored field (counters, limits, period keys) is
returned unchanged, no matter how stale the stored period key is; reset
and limit migration can fire only for non-`pro` tiers. -/
theorem pro_reset_helpers_noop (monthKey : String) (u : UserData)
    (hpro : u.subscriptionTier = some Tier.pro) :
    ensureMonthlyVoiceReset monthKey u = (u, false) ∧
    ensureMonthlyPhotoReset monthKey u = (u, false) :=
  ⟨ensureMonthlyVoiceReset_pro monthKey u hpro, ensureMonthlyPhotoReset_pro monthKey u hpro⟩

theorem pro_reset_helpers_noop_witness :
    ensureMonthlyVoiceReset "2025-06" proStaleRecord = (proStaleRecord, false) ∧
    ensureMonthlyPhotoReset "2025-06" proStaleRecord = (proStaleRecord, false) :=
  pro_reset_helpers_noop "2025-06" proStaleRecord rfl

/-- C6: for a non-`pro` record holding a stored voice limit different
from the current compile-time default `FREE_VOICE_LIMIT`, the voice
normalization helper issues a write that corrects the stored limit to the
default (and refreshes the period key), with no condition on the stored
period key — so the migration fires even when the stored key already
equals the current month and no rollover is due. -/
theorem limit_migration_without_rollover (monthKey : String) (u : UserData) (k : Nat)
    (hnp : u.subscriptionTier ≠ some Tier.pro)
    (hlim : u.voiceActionsLimit = some k) (hk0 : k ≠ 0) (hk : k ≠ FREE_VOICE_LIMIT) :
    (ensureMonthlyVoiceReset monthKey u).2 = true ∧
    ((ensureMonthlyVoiceReset monthKey u).1).voiceActionsLimit = some FREE_VOICE_LIMIT ∧
    ((ensureMonthlyVoiceReset monthKey u).1).voiceActionsDayKey = some monthKey := by
  have ht2 : ¬u.subscriptionTier.getD Tier.free = Tier.pro := fun hh =>
    hnp ((getD_free_eq_pro_iff _).1 hh)
  have hfix : orD u.voiceActionsLimit FREE_VOICE_LIMIT ≠ FREE_VOICE_LIMIT := by
    rw [hlim]
    simpa [orD, hk0] using hk
  simp only [ensureMonthlyVoiceReset]
  rw [if_pos (Or.inr ⟨ht2, hfix⟩)]
  simp [ht2, hfix]

theorem limit_migration_without_rollover_witness :
    (ensureMonthlyVoiceReset "2025-06" migrationRecord).2 = true ∧
    ((ensureMonthlyVoiceReset "2025-06" migrationRecord).1).voiceActionsLimit
        = some FREE_VOICE_LIMIT ∧
    ((ensureMonthlyVoiceReset "2025-06" migrationRecord).1).voiceActionsDayKey
        = some "2025-06" :=
  limit_migration_without_rollover "2025-06" migrationRecord 5 (by decide) rfl
    (by decide) (by decide)

/-- C5: a `pro` record passes the vision usage gate unchanged — the
counter comparison is never applied to it (so it passes even with
`used ≥ limit`), and the full vision handler can never answer a `pro`
record with the quota-exhausted rejection, whatever the provider and
log-write outcomes are. -/
theorem pro_tier_bypasses_quota (monthKey : String) (provider : ProviderOutcome)
    (logFail : Option String) (u : UserData)
    (hpro : u.subscriptionTier = some Tier.pro) :
    visionTryConsume monthKey u = Except.ok u ∧
    isQuotaRejection (callClaudeVision monthKey provider logFail u).1 = false := by
  have hgate : visionTryConsume monthKey u = Except.ok u := by
    simp [visionTryConsume, ensureMonthlyPhotoReset_pro monthKey u hpro, hpro]
  refine ⟨hgate, ?_⟩
  cases provider <;> cases logFail <;>
    simp [callClaudeVision, hgate, isQuotaRejection]

theorem pro_tier_bypasses_quota_witness :
    visionTryConsume "2025-06" proHeavyRecord = Except.ok proHeavyRecord ∧
    isQuotaRejection
        (callClaudeVision "2025-06" (ProviderOutcome.ok "t" 1 2) none proHeavyRecord).1
      = false :=
  pro_tier_bypasses_quota "2025-06" (ProviderOutcome.ok "t" 1 2) none proHeavyRecord rfl

lemma photoReset_subscriptionTier (monthKey : String) (u : UserData) :
    ((ensureMonthlyPhotoReset monthKey u).1).subscriptionTier = u.subscriptionTier := by
  simp only [ensureMonthlyPhotoReset]
  split <;> rfl

lemma photoReset_lifetime (monthKey : String) (u : UserData) :
    ((ensureMonthlyPhotoReset monthKey u).1).lifetimeAPIRequests = u.lifetimeAPIRequests := by
  simp only [ensureMonthlyPhotoReset]
  split <;> rfl

lemma photoReset_monthly (monthKey : String) (u : UserData) :
    ((ensureMonthlyPhotoReset monthKey u).1).monthlyTokens = u.monthlyTokens := by
  simp only [ensureMonthlyPhotoReset]
  split <;> rfl

lemma photoReset_limit_orD (monthKey : String) (u : UserData)
    (hnp : u.subscriptionTier ≠ some Tier.pro) :
    orD ((ensureMonthlyPhotoReset monthKey u).1).photoScansLimit 3 = 3 := by
  have ht2 : ¬u.subscriptionTier.getD Tier.free = Tier.pro := fun hh =>
    hnp ((getD_free_eq_pro_iff _).1 hh)
  by_cases hfix : orD u.photoScansLimit FREE_PHOTO_LIMIT = FREE_PHOTO_LIMIT
  · have hfield : ((ensureMonthlyPhotoReset monthKey u).1).photoScansLimit
        = u.photoScansLimit := by
      simp only [ensureMonthlyPhotoReset]
      split
      · simp [hfix]
      · rfl
    rw [hfield]
    simpa [FREE_PHOTO_LIMIT] using hfix
  · have hfield : ((ensureMonthlyPhotoReset monthKey u).1).photoScansLimit
        = some FREE_PHOTO_LIMIT := by
      simp only [ensureMonthlyPhotoReset]
      rw [if_pos (Or.inr ⟨ht2, hfix⟩)]
      simp [ht2, hfix]
    rw [hfield]
    rfl

lemma photoReset_effLimit (monthKey : String) (u : UserData)
    (hnp : u.subscriptionTier ≠ some Tier.pro) :
    visionEffLimit ((ensureMonthlyPhotoReset monthKey u).1) = 3 := by
  unfold visionEffLimit
  rw [photoReset_subscriptionTier, if_neg hnp]
  exact photoReset_limit_orD monthKey u hnp

lemma photoReset_used_cases (monthKey : String) (u : UserData) :
    visionEffUsed ((ensureMonthlyPhotoReset monthKey u).1) = visionEffUsed u ∨
    ((ensureMonthlyPhotoReset monthKey u).1).photoScansUsed = some 0 := by
  simp only [ensureMonthlyPhotoReset]
  split
  · split
    · exact Or.inr rfl
    · exact Or.inl (by simp [visionEffUsed, orD_eq_getD_zero])
  · exact Or.inl rfl

/-- C4: a free record with a stale period key is rolled over by the first
request of the new period — the helper issues one write that sets
`used = 0` and the current period key together — and the same request's
gate is then evaluated against the fresh counter, so it passes (the
post-rollover counter 0 is below the effective limit). -/
theorem stale_period_rollover_fresh_eval (monthKey k : String) (u : UserData)
    (hfree : u.subscriptionTier = some Tier.free)
    (hkey : u.photoScansDayKey = some k) (hne : k ≠ monthKey)
    (_hfull : visionEffUsed u = visionEffLimit u) :
    (ensureMonthlyPhotoReset monthKey u).2 = true ∧
    ((ensureMonthlyPhotoReset monthKey u).1).photoScansUsed = some 0 ∧
    ((ensureMonthlyPhotoReset monthKey u).1).photoScansDayKey = some monthKey ∧
    visionTryConsume monthKey u = Except.ok ((ensureMonthlyPhotoReset monthKey u).1) := by
  have hnp : u.subscriptionTier ≠ some Tier.pro := by simp [hfree]
  have ht2 : ¬u.subscriptionTier.getD Tier.free = Tier.pro := fun hh =>
    hnp ((getD_free_eq_pro_iff _).1 hh)
  have hreset : ¬u.subscriptionTier.getD Tier.free = Tier.pro ∧
      u.photoScansDayKey ≠ some monthKey := ⟨ht2, by rw [hkey]; simpa using hne⟩
  have hflag : (ensureMonthlyPhotoReset monthKey u).2 = true := by
    simp only [ensureMonthlyPhotoReset]
    rw [if_pos (Or.inl hreset)]
  have hused : ((ensureMonthlyPhotoReset monthKey u).1).photoScansUsed = some 0 := by
    simp only [ensureMonthlyPhotoReset]
    rw [if_pos (Or.inl hreset)]
    simp [hreset]
  have hdk : ((ensureMonthlyPhotoReset monthKey u).1).photoScansDayKey = some monthKey := by
    simp only [ensureMonthlyPhotoReset]
    rw [if_pos (Or.inl hreset)]
  refine ⟨hflag, hused, hdk, ?_⟩
  have hu0 : visionEffUsed ((ensureMonthlyPhotoReset monthKey u).1) = 0 := by
    unfold visionEffUsed
    rw [hused]
    rfl
  have hl3 : visionEffLimit ((ensureMonthlyPhotoReset monthKey u).1) = 3 :=
    photoReset_effLimit monthKey u hnp
  have hcfalse : ¬(visionEffUsed ((ensureMonthlyPhotoReset monthKey u).1)
      ≥ visionEffLimit ((ensureMonthlyPhotoReset monthKey u).1) ∧
      ((ensureMonthlyPhotoReset monthKey u).1).subscriptionTier = some Tier.free) := by
    rw [hu0, hl3]
    rintro ⟨hge, -⟩
    exact absurd hge (by decide)
  simp only [visionTryConsume]
  rw [if_neg hcfalse]

theorem stale_period_rollover_fresh_eval_witness :
    (ensureMonthlyPhotoReset "2025-06" staleFullRecord).2 = true ∧
    ((ensureMonthlyPhotoReset "2025-06" staleFullRecord).1).photoScansUsed = some 0 ∧
    ((ensureMonthlyPhotoReset "2025-06" staleFullRecord).1).photoScansDayKey
        = some "2025-06" ∧
    visionTryConsume "2025-06" staleFullRecord
        = Except.ok ((ensureMonthlyPhotoReset "2025-06" staleFullRecord).1) :=
  stale_period_rollover_fresh_eval "2025-06" "2025-05" staleFullRecord rfl rfl
    (by decide) (by decide)

/-- C3: a free record whose normalized counter has no remaining allowance
is answered with the quota-exhausted rejection carrying the effective
limit, the counter value and the `free` tier, before the provider is
consulted; the final stored record is the normalized one, whose counter
value, lifetime request count and monthly token count are identical to
the pre-call record's. -/
theorem quota_rejection_no_mutation (monthKey : String) (provider : ProviderOutcome)
    (logFail : Option String) (u : UserData)
    (hfree : u.subscriptionTier = some Tier.free)
    (hexh : visionEffUsed ((ensureMonthlyPhotoReset monthKey u).1)
        ≥ visionEffLimit ((ensureMonthlyPhotoReset monthKey u).1)) :
    callClaudeVision monthKey provider logFail u
        = (Except.error (Err.quotaExhausted
              (visionEffLimit ((ensureMonthlyPhotoReset monthKey u).1))
              (visionEffUsed ((ensureMonthlyPhotoReset monthKey u).1)) Tier.free),
            (ensureMonthlyPhotoReset monthKey u).1) ∧
    visionEffUsed ((ensureMonthlyPhotoReset monthKey u).1) = visionEffUsed u ∧
    ((ensureMonthlyPhotoReset monthKey u).1).lifetimeAPIRequests = u.lifetimeAPIRequests ∧
    ((ensureMonthlyPhotoReset monthKey u).1).monthlyTokens = u.monthlyTokens := by
  have hnp : u.subscriptionTier ≠ some Tier.pro := by simp [hfree]
  have htier : ((ensureMonthlyPhotoReset monthKey u).1).subscriptionTier
      = some Tier.free := by
    rw [photoReset_subscriptionTier]
    exact hfree
  have hgate : visionTryConsume monthKey u
      = Except.error (Err.quotaExhausted
          (visionEffLimit ((ensureMonthlyPhotoReset monthKey u).1))
          (visionEffUsed ((ensureMonthlyPhotoReset monthKey u).1)) Tier.free) := by
    simp only [visionTryConsume]
    rw [if_pos ⟨hexh, htier⟩]
  have husedpres : visionEffUsed ((ensureMonthlyPhotoReset monthKey u).1)
      = visionEffUsed u := by
    rcases photoReset_used_cases monthKey u with h | h
    · exact h
    · exfalso
      have h0 : visionEffUsed ((ensureMonthlyPhotoReset monthKey u).1) = 0 := by
        unfold visionEffUsed
        rw [h]
        rfl
      have hl3 : visionEffLimit ((ensureMonthlyPhotoReset monthKey u).1) = 3 :=
        photoReset_effLimit monthKey u hnp
      rw [h0, hl3] at hexh
      exact absurd hexh (by decide)
  refine ⟨?_, husedpres, photoReset_lifetime monthKey u, photoReset_monthly monthKey u⟩
  simp only [callClaudeVision]
  rw [hgate]

theorem quota_rejection_no_mutation_witness :
    callClaudeVision "2025-06" (ProviderOutcome.ok "t" 1 2) none exhaustedRecord
        = (Except.error (Err.quotaExhausted
              (visionEffLimit ((ensureMonthlyPhotoReset "2025-06" exhaustedRecord).1))
              (visionEffUsed ((ensureMonthlyPhotoReset "2025-06" exhaustedRecord).1))
              Tier.free),
            (ensureMonthlyPhotoReset "2025-06" exhaustedRecord).1) ∧
    visionEffUsed ((ensureMonthlyPhotoReset "2025-06" exhaustedRecord).1)
        = visionEffUsed exhaustedRecord ∧
    ((ensureMonthlyPhotoReset "2025-06" exhaustedRecord).1).lifetimeAPIRequests
        = exhaustedRecord.lifetimeAPIRequests ∧
    ((ensureMonthlyPhotoReset "2025-06" exhaustedRecord).1).monthlyTokens
        = exhaustedRecord.monthlyTokens :=
  quota_rejection_no_mutation "2025-06" (ProviderOutcome.ok "t" 1 2) none
    exhaustedRecord rfl (by decide)

/-- C2 counterexample: on a free record with remaining allowance that
passes the gate, a provider failure leaves the stored counter at its
original value — it is not incremented by 1 as the claim asserts. -/
theorem provider_failure_no_increment_cex :
    isOkResult (visionTryConsume "2025-06" cexFailRecord) = true ∧
    (callClaudeVision "2025-06" (ProviderOutcome.fail "upstream error") none
        cexFailRecord).2.photoScansUsed = some 1 ∧
    (callClaudeVision "2025-06" (ProviderOutcome.fail "upstream error") none
        cexFailRecord).2.photoScansUsed ≠ some (1 + 1) := by
  refine ⟨rfl, rfl, by decide⟩

/-- C2 (amended): a vision call that passes the quota gate and then
experiences a provider failure returns the wrapped internal error and
leaves the stored record exactly as the gate left it — in particular the
`used` counter is not incremented, because the charge is applied only
after a successful provider response. -/
theorem provider_failure_leaves_used_unchanged (monthKey msg : String)
    (logFail : Option String) (u u1 : UserData)
    (h : visionTryConsume monthKey u = Except.ok u1) :
    callClaudeVision monthKey (ProviderOutcome.fail msg) logFail u
      = (Except.error (Err.internal msg), u1) := by
  simp only [callClaudeVision]
  rw [h]

theorem provider_failure_leaves_used_unchanged_witness :
    callClaudeVision "2025-06" (ProviderOutcome.fail "boom") none cexFailRecord
      = (Except.error (Err.internal "boom"), cexFailRecord) :=
  provider_failure_leaves_used_unchanged "2025-06" "boom" none cexFailRecord
    cexFailRecord rfl

/-- C7: the subscription reconciler derives the persisted tier solely
from the comparison of the verified expiry with the current time — `pro`
exactly when the expiry is in the future, `free` otherwise — and
overwrites the record's tier, expiry and product fields unconditionally
(the right-hand sides below do not depend on the prior record, and the
final conjunct makes that explicit), while the returned result reports
the same tier and active flag. -/
theorem verify_overwrites_tier_from_expiry (now : Int) (claims : ReceiptClaims)
    (u : UserData) :
    (verifySubscription now claims u).1.subscriptionTier
        = some (if now < claims.expiresDate then Tier.pro else Tier.free) ∧
    (verifySubscription now claims u).1.subscriptionExpiresAt = some claims.expiresDate ∧
    (verifySubscription now claims u).1.subscriptionProductId = some claims.productId ∧
    (verifySubscription now claims u).2.subscriptionTier
        = (if now < claims.expiresDate then Tier.pro else Tier.free) ∧
    (verifySubscription now claims u).2.isActive = decide (now < claims.expiresDate) ∧
    (verifySubscription now claims u).2.success = true ∧
    ∀ v : UserData, (verifySubscription now claims v).2 = (verifySubscription now claims u).2 :=
  ⟨rfl, rfl, rfl, rfl, rfl, rfl, fun _ => rfl⟩

/-- C9: a request presenting a device identifier different from the
truthy stored one is never rejected for the mismatch — with quota
available it succeeds outright, the stored `deviceID` is overwritten with
the presented value, and for every provider and log outcome the
quota-rejection decision is the same as it would be on a record already
bound to the presented device. -/
theorem device_mismatch_nonblocking (presented d text : String) (itok otok : Nat)
    (provider : ProviderOutcome) (logFail : Option String) (u : UserData)
    (hdev : u.deviceID = some d) (htruthy : d ≠ "") (hmm : d ≠ presented)
    (hq : ¬(orD u.photoScansUsed 0 ≥ visionEffLimitV2 u ∧
        u.subscriptionTier.getD Tier.free = Tier.free)) :
    (callClaudeVisionV2 presented (ProviderOutcome.ok text itok otok) none u).1
        = Except.ok
            { markdown := text,
              remainingScans := visionEffLimitV2 u - (orD u.photoScansUsed 0 + 1) } ∧
    (callClaudeVisionV2 presented (ProviderOutcome.ok text itok otok) none u).2.deviceID
        = some presented ∧
    isQuotaRejection (callClaudeVisionV2 presented provider logFail u).1
        = isQuotaRejection
            (callClaudeVisionV2 presented provider logFail
              { u with deviceID := some presented }).1 := by
  have hrec : reconcileDevice presented u = ({ u with deviceID := some presented }, true) := by
    simp [reconcileDevice, hdev, htruthy, hmm]
  refine ⟨?_, ?_, ?_⟩
  · simp only [callClaudeVisionV2]
    rw [if_neg hq]
  · simp only [callClaudeVisionV2]
    rw [if_neg hq]
    simp [hrec, chargeVisionUsage]
  · have hq2 : ¬(orD ({ u with deviceID := some presented } : UserData).photoScansUsed 0
        ≥ visionEffLimitV2 { u with deviceID := some presented } ∧
        ({ u with deviceID := some presented } : UserData).subscriptionTier.getD Tier.free
          = Tier.free) := hq
    cases provider <;> cases logFail <;>
      simp only [callClaudeVisionV2, if_neg hq, if_neg hq2] <;> rfl

theorem device_mismatch_nonblocking_witness :
    (callClaudeVisionV2 "device-b" (ProviderOutcome.ok "md" 5 6) none mismatchRecord).1
        = Except.ok
            { markdown := "md",
              remainingScans :=
                visionEffLimitV2 mismatchRecord
                  - (orD mismatchRecord.photoScansUsed 0 + 1) } ∧
    (callClaudeVisionV2 "device-b" (ProviderOutcome.ok "md" 5 6) none
        mismatchRecord).2.deviceID = some "device-b" ∧
    isQuotaRejection
        (callClaudeVisionV2 "device-b" (ProviderOutcome.fail "e") none mismatchRecord).1
      = isQuotaRejection
          (callClaudeVisionV2 "device-b" (ProviderOutcome.fail "e") none
            { mismatchRecord with deviceID := some "device-b" }).1 :=
  device_mismatch_nonblocking "device-b" "device-a" "md" 5 6
    (ProviderOutcome.fail "e") none mismatchRecord rfl (by decide) (by decide) (by decide)

/-- C1: the check-then-increment of the vision handler is not one atomic
unit — the quota check runs over the snapshot read at the start of the
request while the increment is a separate later write.  On a free record
with remaining allowance 1 (`used = 2`, effective limit 3), two
concurrent requests interleaved as read, read, increment, increment both
pass the gate and both consume: two successes where the claim allows
exactly one, and the stored counter ends at 4, above the limit.  The same
two requests run back to back (read, increment, read, reject) give
exactly one success, showing the over-consumption is purely an
interleaving effect.  The normalization step issues no write on this
record (`.2 = false`), so the modelled read and increment are the only
ledger operations the handler performs here. -/
theorem vision_concurrent_overconsumption :
    visionEffLimit raceRecord = 3 ∧
    visionEffUsed raceRecord = 2 ∧
    (ensureMonthlyPhotoReset "2025-06" raceRecord).2 = false ∧
    ((runSched "2025-06" [0, 1, 0, 1] raceRecord [{}, {}]).2.map ReqCtl.success)
        = [true, true] ∧
    (runSched "2025-06" [0, 1, 0, 1] raceRecord [{}, {}]).1.photoScansUsed = some 4 ∧
    ((runSched "2025-06" [0, 0, 1, 1] raceRecord [{}, {}]).2.map ReqCtl.success)
        = [true, false] := by
  decide

/-- C8: with a successful provider response, a failing usage-log write
does fail the overall action — the awaited `usage_logs` add throws before
the return statement and the catch block surfaces it as an internal
error — even though the quota increments were already applied (the
counter moved from 1 to 2), so the caller does not receive the
successful result. -/
theorem log_write_failure_fails_action :
    (callClaudeVision "2025-06" (ProviderOutcome.ok "extracted" 10 20)
        (some "log add failed") cexFailRecord).1
      = Except.error (Err.internal "log add failed") ∧
    isOkResult ((callClaudeVision "2025-06" (ProviderOutcome.ok "extracted" 10 20)
        (some "log add failed") cexFailRecord).1) = false ∧
    (callClaudeVision "2025-06" (ProviderOutcome.ok "extracted" 10 20)
        (some "log add failed") cexFailRecord).2.photoScansUsed = some 2 :=
  ⟨rfl, rfl, rfl⟩

end Notae
